import Mathlib

/-!
# Whoofsy backend — shallow embedding and verification

A shallow embedding of the pet-recovery backend (`main.py`, `schemas.py`):
a MongoDB-backed FastAPI service with entities User, Pet, Tag, ScanEvent,
Coupon, and operations `auth_google`, `activate_tag`, `set_status`,
`link_tag`, `record_scan`, `mark_reunion`.

Modelling choices:
* Mongo `ObjectId`s are modelled as `Nat`; the string/ObjectId round-trips
  in the code (`str(x["_id"])`, `ObjectId(s)`) are identities on this model.
* A collection is a `List` of typed documents (the pydantic schemas give
  every document the full field set); `find_one` is `List.find?` on the
  filter, `update_one` updates the first matching document, `insert`
  appends and hands out the next fresh id.
* `datetime.utcnow()` is an explicit `now : Nat` argument.
* GPS coordinates keep the source's floating type (`Option Float`); the
  code only passes them through, never computes with them.
* A Python `TypeError` from subscripting `None` (e.g. `pet["_id"]` when the
  lookup returned `None`) is the `noneTypeError` outcome, an unhandled
  server-side failure.
-/

/-- Documents of the `user` collection (schema `User` in schemas.py),
with the Mongo `_id` as `oid`. -/
structure UserDoc where
  oid : Nat
  provider : String
  external_id : Option String
  email : String
  name : Option String
  phone : Option String
  tier : String
  created_at : Option Nat
  updated_at : Option Nat
deriving Repr, DecidableEq

/-- Documents of the `pet` collection (schema `Pet` in schemas.py). -/
structure PetDoc where
  oid : Nat
  owner_id : Nat
  name : String
  breed : Option String
  color : Option String
  photos : List String
  medical_notes : Option String
  allergies : Option String
  status : String
  contact_visibility : String
  created_at : Option Nat
  updated_at : Option Nat
deriving Repr, DecidableEq

/-- Documents of the `tag` collection (schema `Tag` in schemas.py). -/
structure TagDoc where
  oid : Nat
  code : String
  owner_id : Option Nat
  pet_id : Option Nat
  activated : Bool
  model : String
  created_at : Option Nat
  updated_at : Option Nat
deriving Repr, DecidableEq

/-- Documents of the `scanevent` collection (schema `ScanEvent`). -/
structure ScanEventDoc where
  oid : Nat
  code : String
  pet_id : Option Nat
  owner_id : Option Nat
  timestamp : Nat
  lat : Option Float
  lng : Option Float
  accuracy : Option Float
  user_agent : Option String
  referrer : Option String

/-- Documents of the `coupon` collection (schema `Coupon`). -/
structure CouponDoc where
  oid : Nat
  code : String
  offer : String
  redeemed : Bool
  created_at : Option Nat
  redeemed_at : Option Nat
deriving Repr, DecidableEq

/-- The document store: the five collections touched by main.py plus the
fresh-id counter the adapter uses to mint `_id`s.

Modelled from the spec: `database.py` is not under src/; §2 and §9 describe
it as a generic document-store adapter (named collections, `get`/`insert`/
`update`, server-assigned identifiers). -/
structure Store where
  users : List UserDoc
  pets : List PetDoc
  tags : List TagDoc
  scanevents : List ScanEventDoc
  coupons : List CouponDoc
  nextId : Nat

/-- `update_one(filter, {"$set": ...})`: rewrite the first document matching
the filter with `f`, returning the new collection and `matched_count`. -/
def updateOne (q : α → Bool) (f : α → α) : List α → List α × Nat
  | [] => ([], 0)
  | x :: xs =>
    if q x then (f x :: xs, 1)
    else
      let r := updateOne q f xs
      (x :: r.1, r.2)

/-- Error outcomes of a request: an `HTTPException(status, detail)`, or an
unhandled Python `TypeError` from subscripting a `None` lookup result
(which FastAPI surfaces as a 500 internal server error). -/
inductive ApiErr where
  | http (status : Nat) (detail : String)
  | noneTypeError
deriving Repr, DecidableEq

/-- Request body of `POST /auth/google` (`AuthPayload` in main.py). -/
structure AuthPayload where
  email : String
  name : Option String
  phone : Option String
  external_id : Option String
deriving Repr, DecidableEq

/-- The `$set` document of `auth_google`'s update branch:
`{"name": payload.name, "phone": payload.phone, "updated_at": _now()}` —
note it writes the payload values as-is, nulls included. -/
def setProfile (p : AuthPayload) (now : Nat) (u : UserDoc) : UserDoc :=
  { u with name := p.name, phone := p.phone, updated_at := some now }

/-- The fresh User document inserted by `auth_google`'s create branch
(`User(provider="google", ..., tier="basic", ...)`). -/
def newUser (p : AuthPayload) (now : Nat) (s : Store) : UserDoc :=
  { oid := s.nextId, provider := "google", external_id := p.external_id
    email := p.email, name := p.name, phone := p.phone, tier := "basic"
    created_at := some now, updated_at := some now }

/-- `POST /auth/google` (main.py `auth_google`): upsert-by-email.  If a user
with the email exists, `$set` name, phone and `updated_at` from the payload
and re-read; otherwise insert a fresh `User` with tier `"basic"`. -/
def auth_google (p : AuthPayload) (now : Nat) (s : Store) :
    Except ApiErr UserDoc × Store :=
  match s.users.find? (fun u => u.email == p.email) with
  | some existing =>
    let r := updateOne (fun u => u.oid == existing.oid) (setProfile p now) s.users
    let s1 : Store := { s with users := r.1 }
    match s1.users.find? (fun u => u.oid == existing.oid) with
    | some u => (.ok u, s1)
    | none => (.error .noneTypeError, s1)
  | none =>
    let s1 : Store :=
      { s with users := s.users ++ [newUser p now s], nextId := s.nextId + 1 }
    match s1.users.find? (fun v => v.oid == (newUser p now s).oid) with
    | some v => (.ok v, s1)
    | none => (.error .noneTypeError, s1)

/-- Request body of `POST /tags/activate` (`ActivatePayload` in main.py);
`model` defaults to `"smart_tag"`. -/
structure ActivatePayload where
  code : String
  user_id : Nat
  model : String
deriving Repr, DecidableEq

/-- The `$set` document of `activate_tag`'s update:
`{"owner_id": p.user_id, "activated": True, "updated_at": _now()}`. -/
def setActivated (userId : Nat) (now : Nat) (t : TagDoc) : TagDoc :=
  { t with owner_id := some userId, activated := true, updated_at := some now }

/-- Shared tail of `activate_tag`: `$set` owner/activated/updated_at on the
tag with `tagOid`, then re-read it by `_id`. -/
def activateWrite (userId : Nat) (now : Nat) (tagOid : Nat) (s : Store) :
    Except ApiErr TagDoc × Store :=
  let r := updateOne (fun t => t.oid == tagOid) (setActivated userId now) s.tags
  let s1 : Store := { s with tags := r.1 }
  match s1.tags.find? (fun t => t.oid == tagOid) with
  | some t => (.ok t, s1)
  | none => (.error .noneTypeError, s1)

/-- The lazily-provisioned Tag document of `activate_tag`'s create branch
(`Tag(code=p.code, activated=False, model=p.model, ...)`: owner and pet
links start at the schema defaults `None`). -/
def newTag (p : ActivatePayload) (now : Nat) (s : Store) : TagDoc :=
  { oid := s.nextId, code := p.code, owner_id := none, pet_id := none
    activated := false, model := p.model
    created_at := some now, updated_at := some now }

/-- `POST /tags/activate` (main.py `activate_tag`): 400 if the tag exists
and is already activated; otherwise lazily create the tag (activated =
false) when absent, then set `owner_id` and `activated = true`. -/
def activate_tag (p : ActivatePayload) (now : Nat) (s : Store) :
    Except ApiErr TagDoc × Store :=
  match s.tags.find? (fun t => t.code == p.code) with
  | some tag =>
    if tag.activated then (.error (.http 400 "Tag already activated"), s)
    else activateWrite p.user_id now tag.oid s
  | none =>
    let s1 : Store :=
      { s with tags := s.tags ++ [newTag p now s], nextId := s.nextId + 1 }
    match s1.tags.find? (fun t => t.code == p.code) with
    | some tag => activateWrite p.user_id now tag.oid s1
    | none => (.error .noneTypeError, s1)

/-- `PATCH /pets/{pet_id}/status` (main.py `set_status`): 400 unless the
status is `"ACTIVE"` or `"LOST"`, else `$set` status/updated_at on the pet;
404 when no pet matched; on success re-read and return the pet. -/
def set_status (pet_id : Nat) (status : String) (now : Nat) (s : Store) :
    Except ApiErr PetDoc × Store :=
  if status != "ACTIVE" && status != "LOST" then
    (.error (.http 400 "Invalid status"), s)
  else
    let r := updateOne (fun x => x.oid == pet_id)
      (fun x => { x with status := status, updated_at := some now })
      s.pets
    let s1 : Store := { s with pets := r.1 }
    if r.2 == 0 then (.error (.http 404 "Pet not found"), s1)
    else
      match s1.pets.find? (fun x => x.oid == pet_id) with
      | some pt => (.ok pt, s1)
      | none => (.error .noneTypeError, s1)

/-- Request body of `POST /tags/link` (`LinkPayload` in main.py). -/
structure LinkPayload where
  code : String
  pet_id : Nat
deriving Repr, DecidableEq

/-- Success body of `POST /tags/link`. -/
structure LinkResult where
  success : Bool
  tag_code : String
  pet_oid : Nat
  pet_name : Option String
deriving Repr, DecidableEq

/-- The `$set` document of `link_tag`'s update:
`{"pet_id": p.pet_id, "updated_at": _now()}`. -/
def setPetLink (petId : Nat) (now : Nat) (t : TagDoc) : TagDoc :=
  { t with pet_id := some petId, updated_at := some now }

/-- `POST /tags/link` (main.py `link_tag`): 404 if no tag has the code;
otherwise `$set` the tag's `pet_id` (no validation of the pet), then read
the pet to build the confirmation — subscripting a missing pet raises. -/
def link_tag (p : LinkPayload) (now : Nat) (s : Store) :
    Except ApiErr LinkResult × Store :=
  match s.tags.find? (fun t => t.code == p.code) with
  | none => (.error (.http 404 "Tag not found"), s)
  | some tag =>
    let r := updateOne (fun t => t.oid == tag.oid) (setPetLink p.pet_id now) s.tags
    let s1 : Store := { s with tags := r.1 }
    if r.2 == 0 then (.error (.http 500 "Failed to link tag"), s1)
    else
      match s1.pets.find? (fun x => x.oid == p.pet_id) with
      | some pet =>
        (.ok { success := true, tag_code := tag.code, pet_oid := pet.oid
               pet_name := some pet.name }, s1)
      | none => (.error .noneTypeError, s1)

/-- Request body of `POST /scan` (`FinderScanPayload` in main.py). -/
structure FinderScanPayload where
  code : String
  lat : Option Float
  lng : Option Float
  accuracy : Option Float

/-- GPS snapshot echoed inside a premium alert. -/
structure GpsSnapshot where
  lat : Option Float
  lng : Option Float
  accuracy : Option Float

/-- The premium `alert` dict synthesized for premium owners. -/
structure ScanAlert where
  type : String
  delivered : Bool
  channel : String
  gps : GpsSnapshot

/-- The `medical` sub-object of the scan response. -/
structure MedicalInfo where
  notes : Option String
  allergies : Option String

/-- The `pet` sub-object of the scan response. -/
structure PetInfo where
  name : Option String
  photos : List String
  medical : MedicalInfo

/-- The `contact` sub-object of the scan response. -/
structure ContactInfo where
  visibility : String
  phone : Option String

/-- The fixed `good_samaritan_offer` sub-object. -/
structure OfferInfo where
  headline : String
  copy : String
deriving Repr, DecidableEq

/-- The finder-facing scan response payload. -/
structure ScanResult where
  status : String
  pet : PetInfo
  contact : ContactInfo
  good_samaritan_offer : OfferInfo
  premium_alert : Option ScanAlert

/-- Pet resolution in `record_scan`: look the pet up only when the tag
carries a `pet_id` (`pcol.find_one(...) if tag.get("pet_id") else None`). -/
def scanPet (s : Store) (tag : TagDoc) : Option PetDoc :=
  match tag.pet_id with
  | some pid => s.pets.find? (fun x => x.oid == pid)
  | none => none

/-- Owner resolution in `record_scan`, analogous to `scanPet`. -/
def scanOwner (s : Store) (tag : TagDoc) : Option UserDoc :=
  match tag.owner_id with
  | some uid => s.users.find? (fun u => u.oid == uid)
  | none => none

/-- The ScanEvent document built in `record_scan` just before
`create_document("scanevent", ...)`: denormalized ids of the *resolved*
pet/owner (null when the lookup failed), the supplied geolocation as-is,
and the request's user-agent/referer headers. -/
def scanEvent (p : FinderScanPayload) (user_agent referrer : Option String)
    (now : Nat) (s : Store) (tag : TagDoc) : ScanEventDoc :=
  { oid := s.nextId, code := p.code
    pet_id := (scanPet s tag).map (fun x => x.oid)
    owner_id := (scanOwner s tag).map (fun u => u.oid)
    timestamp := now, lat := p.lat, lng := p.lng, accuracy := p.accuracy
    user_agent := user_agent, referrer := referrer }

/-- The owner's tier in `record_scan`: `(owner or {}).get("tier", "basic")`. -/
def scanTier (s : Store) (tag : TagDoc) : String :=
  ((scanOwner s tag).map (fun u => u.tier)).getD "basic"

/-- The premium `alert` value of `record_scan`: populated exactly when the
resolved owner's tier is `"premium"`, echoing the supplied GPS snapshot. -/
def scanAlert (p : FinderScanPayload) (s : Store) (tag : TagDoc) :
    Option ScanAlert :=
  if scanTier s tag == "premium" then
    some { type := "scan_alert", delivered := true, channel := "email"
           gps := { lat := p.lat, lng := p.lng, accuracy := p.accuracy } }
  else none

/-- The finder-facing response dict of `record_scan`, with the
`.get(field, default)` fallbacks of the source. -/
def scanPayload (p : FinderScanPayload) (s : Store) (tag : TagDoc) :
    ScanResult :=
  let pet := scanPet s tag
  let owner := scanOwner s tag
  { status := (pet.map (fun x => x.status)).getD "ACTIVE"
    pet :=
      { name := pet.map (fun x => x.name)
        photos := (pet.map (fun x => x.photos)).getD []
        medical :=
          { notes := pet.bind (fun x => x.medical_notes)
            allergies := pet.bind (fun x => x.allergies) } }
    contact :=
      { visibility := (pet.map (fun x => x.contact_visibility)).getD "phone"
        phone := owner.bind (fun u => u.phone) }
    good_samaritan_offer :=
      { headline := "Thank you for helping!"
        copy := "Get 50% off your first Whoofsy tag." }
    premium_alert := scanAlert p s tag }

/-- `POST /scan` (main.py `record_scan`): 404 "Tag not active" when the tag
is absent or not activated; otherwise resolve pet and owner (tolerating
both missing), insert one ScanEvent, synthesize a premium alert when the
owner's tier is `"premium"`, and compose the finder payload. -/
def record_scan (p : FinderScanPayload) (user_agent referrer : Option String)
    (now : Nat) (s : Store) : Except ApiErr ScanResult × Store :=
  match s.tags.find? (fun t => t.code == p.code) with
  | none => (.error (.http 404 "Tag not active"), s)
  | some tag =>
    if !tag.activated then (.error (.http 404 "Tag not active"), s)
    else
      (.ok (scanPayload p s tag),
       { s with
          scanevents := s.scanevents ++ [scanEvent p user_agent referrer now s tag]
          nextId := s.nextId + 1 })

/-- The Coupon document built in `mark_reunion`'s create branch
(`Coupon(code=p.code, redeemed=False, created_at=_now())`, with the
schema-default offer text). -/
def newCoupon (code : String) (now : Nat) (s : Store) : CouponDoc :=
  { oid := s.nextId, code := code, offer := "50% off your first Whoofsy tag"
    redeemed := false, created_at := some now, redeemed_at := none }

/-- `POST /reunion` (main.py `mark_reunion`): return the existing unredeemed
coupon for the code if there is one; otherwise insert a fresh coupon with
`redeemed = false` and re-read it by the same filter. -/
def mark_reunion (code : String) (now : Nat) (s : Store) :
    Except ApiErr CouponDoc × Store :=
  match s.coupons.find? (fun c => c.code == code && c.redeemed == false) with
  | some existing => (.ok existing, s)
  | none =>
    let s1 : Store :=
      { s with coupons := s.coupons ++ [newCoupon code now s], nextId := s.nextId + 1 }
    match s1.coupons.find? (fun x => x.code == code && x.redeemed == false) with
    | some saved => (.ok saved, s1)
    | none => (.error .noneTypeError, s1)

/-- Store sanity invariant maintained by the adapter: every `_id` it minted
is below the counter, and `_id`s are unique per collection. -/
def Store.WF (s : Store) : Prop :=
  (∀ u ∈ s.users, u.oid < s.nextId) ∧ (s.users.map UserDoc.oid).Nodup ∧
  (∀ x ∈ s.pets, x.oid < s.nextId) ∧ (s.pets.map PetDoc.oid).Nodup ∧
  (∀ x ∈ s.tags, x.oid < s.nextId) ∧ (s.tags.map TagDoc.oid).Nodup ∧
  (∀ x ∈ s.coupons, x.oid < s.nextId) ∧ (s.coupons.map CouponDoc.oid).Nodup

instance (s : Store) : Decidable s.WF := by
  unfold Store.WF
  infer_instance

/-! ## Library facts about `updateOne` and `List.find?` -/

theorem updateOne_of_find?_none (q : α → Bool) (f : α → α) (l : List α)
    (h : l.find? q = none) : updateOne q f l = (l, 0) := by
  induction l with
  | nil => rfl
  | cons x xs ih =>
    rw [List.find?_cons] at h
    cases hqx : q x with
    | true => simp [hqx] at h
    | false =>
      simp only [hqx] at h
      simp [updateOne, hqx, ih h]

theorem updateOne_snd_eq (q : α → Bool) (f : α → α) (l : List α) :
    (updateOne q f l).2 = if (l.find? q).isSome then 1 else 0 := by
  induction l with
  | nil => rfl
  | cons x xs ih =>
    cases hqx : q x with
    | true => simp [updateOne, hqx, List.find?_cons]
    | false => simp [updateOne, hqx, List.find?_cons, ih]

theorem updateOne_length (q : α → Bool) (f : α → α) (l : List α) :
    (updateOne q f l).1.length = l.length := by
  induction l with
  | nil => rfl
  | cons x xs ih =>
    cases hqx : q x with
    | true => simp [updateOne, hqx]
    | false => simp [updateOne, hqx, ih]

theorem updateOne_mem_of_not (q : α → Bool) (f : α → α) (l : List α) (x : α)
    (hx : x ∈ l) (hqx : q x = false) : x ∈ (updateOne q f l).1 := by
  induction l with
  | nil => cases hx
  | cons y ys ih =>
    cases hqy : q y with
    | true =>
      simp only [updateOne, hqy, if_pos]
      rcases List.mem_cons.mp hx with h | h
      · subst h; rw [hqx] at hqy; cases hqy
      · exact List.mem_cons_of_mem _ h
    | false =>
      simp only [updateOne, hqy, if_neg, Bool.false_eq_true, not_false_iff]
      rcases List.mem_cons.mp hx with h | h
      · exact h ▸ List.mem_cons_self _ _
      · exact List.mem_cons_of_mem _ (ih h)

theorem find?_updateOne_self (q : α → Bool) (f : α → α) (l : List α)
    (hf : ∀ x, q x = true → q (f x) = true) :
    ((updateOne q f l).1).find? q = (l.find? q).map f := by
  induction l with
  | nil => rfl
  | cons x xs ih =>
    cases hqx : q x with
    | true => simp [updateOne, hqx, List.find?_cons, hf x hqx]
    | false => simp [updateOne, hqx, List.find?_cons, ih]

theorem find?_append_none (q : α → Bool) (l : List α) (a : α)
    (h : l.find? q = none) :
    (l ++ [a]).find? q = if q a then some a else none := by
  induction l with
  | nil => cases hqa : q a <;> simp [List.find?_cons, hqa]
  | cons x xs ih =>
    rw [List.find?_cons] at h
    cases hqx : q x with
    | true => simp [hqx] at h
    | false =>
      simp only [hqx] at h
      simp [List.find?_cons, hqx, ih h]

theorem updateOne_append_last (q : α → Bool) (f : α → α) (l : List α) (a : α)
    (h : ∀ x ∈ l, q x = false) (ha : q a = true) :
    updateOne q f (l ++ [a]) = (l ++ [f a], 1) := by
  induction l with
  | nil => simp [updateOne, ha]
  | cons x xs ih =>
    have hx : q x = false := h x (List.mem_cons_self _ _)
    have ih2 := ih (fun y hy => h y (List.mem_cons_of_mem _ hy))
    simp [updateOne, hx, ih2]

theorem find?_key_self (key : α → Nat) (l : List α) (t : α)
    (ht : t ∈ l) (hnd : (l.map key).Nodup) :
    l.find? (fun x => key x == key t) = some t := by
  induction l with
  | nil => cases ht
  | cons x xs ih =>
    rcases List.mem_cons.mp ht with h | h
    · subst h
      simp [List.find?_cons]
    · have hnd2 : (xs.map key).Nodup := (List.nodup_cons.mp hnd).2
      have hxk : key x ∉ xs.map key := (List.nodup_cons.mp hnd).1
      have hne : (key x == key t) = false := by
        rw [beq_eq_false_iff_ne]
        intro he
        exact hxk (he ▸ List.mem_map_of_mem key h)
      simp [List.find?_cons, hne, ih h hnd2]

theorem find?_updateOne_of_agree (q q' : α → Bool) (f : α → α) (l : List α) (t : α)
    (hfind : l.find? q = some t)
    (hq' : q' t = true)
    (huniq : ∀ x ∈ l, q' x = true → x = t)
    (hft : q (f t) = true) :
    ((updateOne q' f l).1).find? q = some (f t) := by
  induction l with
  | nil => cases hfind
  | cons x xs ih =>
    rw [List.find?_cons] at hfind
    cases hqx : q x with
    | true =>
      simp only [hqx, Option.some.injEq] at hfind
      subst hfind
      simp [updateOne, hq', List.find?_cons, hft]
    | false =>
      simp only [hqx] at hfind
      have hq'x : q' x = false := by
        cases hq'x : q' x with
        | false => rfl
        | true =>
          have := huniq x (List.mem_cons_self _ _) hq'x
          subst this
          rw [List.find?_some hfind] at hqx
          cases hqx
      have ih2 := ih hfind (fun y hy hqy => huniq y (List.mem_cons_of_mem _ hy) hqy)
      simp [updateOne, hq'x, List.find?_cons, hqx, ih2]

theorem mem_key_eq (key : α → Nat) (l : List α) (t x : α)
    (hnd : (l.map key).Nodup) (ht : t ∈ l) (hx : x ∈ l) (hk : key x = key t) :
    x = t :=
  List.inj_on_of_nodup_map hnd hx ht hk

/-! ## Concrete fixtures for witnesses -/

/-- A basic-tier owner. -/
def uBasic : UserDoc :=
  { oid := 1, provider := "google", external_id := none, email := "ann@x.com"
    name := some "Ann", phone := some "555-1234", tier := "basic"
    created_at := some 0, updated_at := some 0 }

/-- A premium-tier owner. -/
def uPrem : UserDoc :=
  { oid := 2, provider := "google", external_id := none, email := "bob@x.com"
    name := some "Bob", phone := some "555-9999", tier := "premium"
    created_at := some 0, updated_at := some 0 }

/-- A pet owned by `uBasic`, currently LOST, with form-only visibility. -/
def petRex : PetDoc :=
  { oid := 3, owner_id := 1, name := "Rex", breed := some "lab", color := none
    photos := ["p1.jpg"], medical_notes := some "meds", allergies := none
    status := "LOST", contact_visibility := "form"
    created_at := some 0, updated_at := some 0 }

/-- An activated tag linked to `petRex`, owned by `uBasic`. -/
def tagActive : TagDoc :=
  { oid := 4, code := "TAG1", owner_id := some 1, pet_id := some 3
    activated := true, model := "smart_tag", created_at := some 0, updated_at := some 0 }

/-- A pre-provisioned tag that was never activated, already carrying a pet link. -/
def tagInactive : TagDoc :=
  { oid := 5, code := "TAG2", owner_id := some 9, pet_id := some 3
    activated := false, model := "smart_case", created_at := some 0, updated_at := some 0 }

/-- An activated tag owned by the premium user, with a dangling pet reference. -/
def tagPrem : TagDoc :=
  { oid := 6, code := "TAG3", owner_id := some 2, pet_id := some 77
    activated := true, model := "smart_tag", created_at := some 0, updated_at := some 0 }

/-- An unredeemed coupon for code "TAG1". -/
def coupon1 : CouponDoc :=
  { oid := 7, code := "TAG1", offer := "50% off your first Whoofsy tag"
    redeemed := false, created_at := some 0, redeemed_at := none }

/-- The demo store used by the witnesses. -/
def demoStore : Store :=
  { users := [uBasic, uPrem], pets := [petRex]
    tags := [tagActive, tagInactive, tagPrem]
    scanevents := [], coupons := [coupon1], nextId := 10 }

/-! ## The success branch of `record_scan` in closed form -/

theorem record_scan_active_eq (p : FinderScanPayload) (ua ref : Option String)
    (now : Nat) (s : Store) (tg : TagDoc)
    (hfind : s.tags.find? (fun t => t.code == p.code) = some tg)
    (hact : tg.activated = true) :
    record_scan p ua ref now s =
      (.ok (scanPayload p s tg),
       { s with scanevents := s.scanevents ++ [scanEvent p ua ref now s tg]
                nextId := s.nextId + 1 }) := by
  unfold record_scan
  rw [hfind]
  simp [hact]

/-- The scan payload of Scenario C/C2's witness: code "TAG1" with a GPS fix. -/
def scanReq1 : FinderScanPayload :=
  { code := "TAG1", lat := some 1.0, lng := some 2.0, accuracy := none }

/-- The scan payload of Scenario D's witness: premium code "TAG3". -/
def scanReqD : FinderScanPayload :=
  { code := "TAG3", lat := some 10.5, lng := some 20.1, accuracy := some 5.0 }

/-! ## C1 — inactive or absent tags -/

/-- C1: for every scan request, if no tag with the code exists, or one
exists but `activated` is false, `record_scan` fails with the 404 "Tag not
active" error and the store — in particular the scanevent collection — is
completely unchanged; both cases produce the identical outcome, so they are
observationally indistinguishable to the caller. -/
theorem scan_inactive_is_not_found (p : FinderScanPayload) (ua ref : Option String)
    (now : Nat) (s : Store)
    (h : (s.tags.find? (fun t => t.code == p.code)).all (fun t => !t.activated) = true) :
    record_scan p ua ref now s = (.error (.http 404 "Tag not active"), s) := by
  cases hf : s.tags.find? (fun t => t.code == p.code) with
  | none => simp [record_scan, hf]
  | some t =>
    rw [hf] at h
    have ht : t.activated = false := by simpa [Option.all] using h
    simp [record_scan, hf, ht]

/-- C1 witness: scanning the never-activated code "TAG2" of `demoStore`
fails with 404 and leaves the store untouched. -/
theorem scan_inactive_is_not_found_witness :
    record_scan { code := "TAG2", lat := none, lng := none, accuracy := none }
        none none 7 demoStore
      = (.error (.http 404 "Tag not active"), demoStore) :=
  scan_inactive_is_not_found _ none none 7 demoStore (by decide)

/-! ## C2 — a successful scan writes exactly one ScanEvent -/

/-- C2: every scan of an activated tag appends exactly one ScanEvent whose
lat, lng and accuracy are exactly the supplied optional values (nulls
included), and changes nothing else in the store: the user, pet, tag and
coupon collections are untouched, only the scanevent list grows by that one
record (plus the adapter's id counter). -/
theorem scan_single_event_frame (p : FinderScanPayload) (ua ref : Option String)
    (now : Nat) (s : Store) (tg : TagDoc)
    (hfind : s.tags.find? (fun t => t.code == p.code) = some tg)
    (hact : tg.activated = true) :
    ∃ r ev, record_scan p ua ref now s =
        (.ok r, { s with scanevents := s.scanevents ++ [ev], nextId := s.nextId + 1 }) ∧
      ev.lat = p.lat ∧ ev.lng = p.lng ∧ ev.accuracy = p.accuracy ∧
      ev.code = p.code ∧ ev.timestamp = now ∧
      ev.user_agent = ua ∧ ev.referrer = ref :=
  ⟨scanPayload p s tg, scanEvent p ua ref now s tg,
   record_scan_active_eq p ua ref now s tg hfind hact,
   rfl, rfl, rfl, rfl, rfl, rfl, rfl⟩

/-- C2 witness: scanning "TAG1" on `demoStore` with `lat=1.0, lng=2.0` and
no accuracy appends exactly one matching ScanEvent. -/
theorem scan_single_event_frame_witness :
    ∃ r ev, record_scan scanReq1 (some "UA") none 7 demoStore =
        (.ok r, { demoStore with
                    scanevents := demoStore.scanevents ++ [ev]
                    nextId := demoStore.nextId + 1 }) ∧
      ev.lat = scanReq1.lat ∧ ev.lng = scanReq1.lng ∧ ev.accuracy = scanReq1.accuracy ∧
      ev.code = scanReq1.code ∧ ev.timestamp = 7 ∧
      ev.user_agent = some "UA" ∧ ev.referrer = none :=
  scan_single_event_frame scanReq1 (some "UA") none 7 demoStore tagActive
    (by decide) (by decide)

/-! ## C3 — premium alert iff premium owner -/

/-- C3: for every successful scan, `premium_alert` is non-null exactly when
the resolved owner's tier is `"premium"` (`scanTier` defaults to `"basic"`
when no owner is resolved); when non-null its gps sub-object is exactly the
supplied lat/lng/accuracy, and for a basic or unresolved owner the alert is
null. -/
theorem scan_premium_alert_iff (p : FinderScanPayload) (ua ref : Option String)
    (now : Nat) (s : Store) (tg : TagDoc)
    (hfind : s.tags.find? (fun t => t.code == p.code) = some tg)
    (hact : tg.activated = true) :
    ∃ r, (record_scan p ua ref now s).1 = .ok r ∧
      (r.premium_alert.isSome ↔ scanTier s tg = "premium") ∧
      (∀ a, r.premium_alert = some a →
        a.gps.lat = p.lat ∧ a.gps.lng = p.lng ∧ a.gps.accuracy = p.accuracy) ∧
      (scanTier s tg ≠ "premium" → r.premium_alert = none) ∧
      (scanOwner s tg = none → r.premium_alert = none) := by
  refine ⟨scanPayload p s tg, ?_, ?_, ?_, ?_, ?_⟩
  · rw [record_scan_active_eq p ua ref now s tg hfind hact]
  · by_cases h : scanTier s tg = "premium" <;>
      simp [scanPayload, scanAlert, h]
  · intro a ha
    by_cases h : scanTier s tg = "premium"
    · simp only [scanPayload, scanAlert, h, beq_self_eq_true, if_pos] at ha
      obtain rfl : _ = a := Option.some.inj ha
      exact ⟨rfl, rfl, rfl⟩
    · simp [scanPayload, scanAlert, h] at ha
  · intro h
    simp [scanPayload, scanAlert, h]
  · intro h
    have : scanTier s tg = "basic" := by simp [scanTier, h]
    simp [scanPayload, scanAlert, this]

/-- C3 witness (Scenario D): scanning premium-owned "TAG3" with
`lat=10.5, lng=20.1, accuracy=5.0` yields an alert echoing that GPS fix. -/
theorem scan_premium_alert_iff_witness :
    ∃ r, (record_scan scanReqD none none 7 demoStore).1 = .ok r ∧
      (r.premium_alert.isSome ↔ scanTier demoStore tagPrem = "premium") ∧
      (∀ a, r.premium_alert = some a →
        a.gps.lat = scanReqD.lat ∧ a.gps.lng = scanReqD.lng ∧
        a.gps.accuracy = scanReqD.accuracy) ∧
      (scanTier demoStore tagPrem ≠ "premium" → r.premium_alert = none) ∧
      (scanOwner demoStore tagPrem = none → r.premium_alert = none) :=
  scan_premium_alert_iff scanReqD none none 7 demoStore tagPrem
    (by decide) (by decide)

/-! ## C6 — graceful composition with defaults -/

/-- C6: a successful scan never fails even when the tag's pet or owner link
is null or dangling: with no pet resolved the response defaults to status
"ACTIVE", null name/medical notes, empty photos and visibility "phone";
with a pet resolved those mirror the pet; the contact phone is always the
owner's phone (null when unresolved), with no dependence on the visibility
setting; and the good-samaritan offer is a fixed constant. -/
theorem scan_compose_defaults (p : FinderScanPayload) (ua ref : Option String)
    (now : Nat) (s : Store) (tg : TagDoc)
    (hfind : s.tags.find? (fun t => t.code == p.code) = some tg)
    (hact : tg.activated = true) :
    ∃ r, (record_scan p ua ref now s).1 = .ok r ∧
      (scanPet s tg = none → r.status = "ACTIVE" ∧ r.pet.name = none ∧
        r.pet.photos = [] ∧ r.pet.medical.notes = none ∧
        r.pet.medical.allergies = none ∧ r.contact.visibility = "phone") ∧
      (∀ pt, scanPet s tg = some pt → r.status = pt.status ∧
        r.pet.name = some pt.name ∧ r.pet.photos = pt.photos ∧
        r.pet.medical.notes = pt.medical_notes ∧
        r.pet.medical.allergies = pt.allergies ∧
        r.contact.visibility = pt.contact_visibility) ∧
      (scanOwner s tg = none → r.contact.phone = none) ∧
      (∀ o, scanOwner s tg = some o → r.contact.phone = o.phone) ∧
      r.good_samaritan_offer.headline = "Thank you for helping!" ∧
      r.good_samaritan_offer.copy = "Get 50% off your first Whoofsy tag." := by
  refine ⟨scanPayload p s tg, ?_, ?_, ?_, ?_, ?_, rfl, rfl⟩
  · rw [record_scan_active_eq p ua ref now s tg hfind hact]
  · intro h
    simp [scanPayload, h]
  · intro pt h
    simp [scanPayload, h]
  · intro h
    simp [scanPayload, h]
  · intro o h
    simp [scanPayload, h]

/-- C6 witness: scanning "TAG3", whose tag carries a dangling pet reference
but a resolvable premium owner, still succeeds with the defaults. -/
theorem scan_compose_defaults_witness :
    ∃ r, (record_scan scanReqD none none 7 demoStore).1 = .ok r ∧
      (scanPet demoStore tagPrem = none → r.status = "ACTIVE" ∧ r.pet.name = none ∧
        r.pet.photos = [] ∧ r.pet.medical.notes = none ∧
        r.pet.medical.allergies = none ∧ r.contact.visibility = "phone") ∧
      (∀ pt, scanPet demoStore tagPrem = some pt → r.status = pt.status ∧
        r.pet.name = some pt.name ∧ r.pet.photos = pt.photos ∧
        r.pet.medical.notes = pt.medical_notes ∧
        r.pet.medical.allergies = pt.allergies ∧
        r.contact.visibility = pt.contact_visibility) ∧
      (scanOwner demoStore tagPrem = none → r.contact.phone = none) ∧
      (∀ o, scanOwner demoStore tagPrem = some o → r.contact.phone = o.phone) ∧
      r.good_samaritan_offer.headline = "Thank you for helping!" ∧
      r.good_samaritan_offer.copy = "Get 50% off your first Whoofsy tag." :=
  scan_compose_defaults scanReqD none none 7 demoStore tagPrem
    (by decide) (by decide)

/-! ## C7 — reunion coupon idempotence -/

theorem mark_reunion_existing_eq (code : String) (now : Nat) (s : Store)
    (c : CouponDoc)
    (hf : s.coupons.find? (fun x => x.code == code && x.redeemed == false) = some c) :
    mark_reunion code now s = (.ok c, s) := by
  unfold mark_reunion
  rw [hf]

theorem mark_reunion_create_eq (code : String) (now : Nat) (s : Store)
    (hf : s.coupons.find? (fun c => c.code == code && c.redeemed == false) = none) :
    mark_reunion code now s =
      (.ok (newCoupon code now s),
       { s with coupons := s.coupons ++ [newCoupon code now s]
                nextId := s.nextId + 1 }) := by
  have happ2 : (s.coupons ++ [newCoupon code now s]).find?
      (fun c => c.code == code && c.redeemed == false) = some (newCoupon code now s) := by
    rw [find?_append_none _ _ _ hf]
    simp [newCoupon]
  unfold mark_reunion
  rw [hf]
  dsimp only
  rw [happ2]

/-- C7: `markReunion` is idempotent (non-concurrently): the call always
succeeds with an unredeemed coupon for the code; calling again with the
same code on the resulting store returns the very same coupon and changes
nothing; and when an unredeemed coupon already existed, the first call
already returns it with no write at all. -/
theorem mark_reunion_idempotent (code : String) (now now2 : Nat) (s : Store) :
    ∃ c1 s1, mark_reunion code now s = (.ok c1, s1) ∧
      c1.redeemed = false ∧ c1.code = code ∧
      mark_reunion code now2 s1 = (.ok c1, s1) ∧
      (∀ c0, s.coupons.find? (fun c => c.code == code && c.redeemed == false) = some c0 →
        c1 = c0 ∧ s1 = s) := by
  cases hf : s.coupons.find? (fun c => c.code == code && c.redeemed == false) with
  | some c0 =>
    have hc0 := List.find?_some hf
    simp only [Bool.and_eq_true, beq_iff_eq] at hc0
    refine ⟨c0, s, mark_reunion_existing_eq code now s c0 hf, hc0.2, hc0.1,
      mark_reunion_existing_eq code now2 s c0 hf, ?_⟩
    intro c0' h0
    obtain rfl : c0 = c0' := Option.some.inj h0
    exact ⟨rfl, rfl⟩
  | none =>
    have key := mark_reunion_create_eq code now s hf
    have happ2 : (s.coupons ++ [newCoupon code now s]).find?
        (fun c => c.code == code && c.redeemed == false) = some (newCoupon code now s) := by
      rw [find?_append_none _ _ _ hf]
      simp [newCoupon]
    refine ⟨newCoupon code now s, _, key, rfl, rfl,
      mark_reunion_existing_eq code now2 _ _ happ2, ?_⟩
    intro c0' h0
    exact Option.noConfusion h0

/-- C7 witness: on `demoStore`, which already holds the unredeemed coupon
`coupon1` for "TAG1", `mark_reunion` returns that same coupon on two
successive calls with no write. -/
theorem mark_reunion_idempotent_witness :
    ∃ c1 s1, mark_reunion "TAG1" 8 demoStore = (.ok c1, s1) ∧
      c1.redeemed = false ∧ c1.code = "TAG1" ∧
      mark_reunion "TAG1" 9 s1 = (.ok c1, s1) ∧
      (∀ c0, demoStore.coupons.find?
          (fun c => c.code == "TAG1" && c.redeemed == false) = some c0 →
        c1 = c0 ∧ s1 = demoStore) :=
  mark_reunion_idempotent "TAG1" 8 9 demoStore

/-! ## C8 — pet status update -/

/-- C8: the status update rejects any value other than "ACTIVE" or "LOST"
with 400 Invalid status and leaves the whole store (in particular the pet's
stored status) unchanged; with a valid value it fails 404 and changes
nothing when no pet has the id; and on success only the matched pet's
`status` and `updated_at` fields change — every other field of that pet,
every other pet, and every other collection are untouched. -/
theorem set_status_cases (pid : Nat) (st : String) (now : Nat) (s : Store) :
    (¬(st = "ACTIVE" ∨ st = "LOST") →
      set_status pid st now s = (.error (.http 400 "Invalid status"), s)) ∧
    ((st = "ACTIVE" ∨ st = "LOST") →
      (s.pets.find? (fun x => x.oid == pid) = none →
        set_status pid st now s = (.error (.http 404 "Pet not found"), s)) ∧
      (∀ pt, s.pets.find? (fun x => x.oid == pid) = some pt →
        ∃ pt1 s1, set_status pid st now s = (.ok pt1, s1) ∧
          pt1.status = st ∧ pt1.updated_at = some now ∧
          pt1.oid = pt.oid ∧ pt1.owner_id = pt.owner_id ∧ pt1.name = pt.name ∧
          pt1.breed = pt.breed ∧ pt1.color = pt.color ∧ pt1.photos = pt.photos ∧
          pt1.medical_notes = pt.medical_notes ∧ pt1.allergies = pt.allergies ∧
          pt1.contact_visibility = pt.contact_visibility ∧
          pt1.created_at = pt.created_at ∧
          s1.users = s.users ∧ s1.tags = s.tags ∧ s1.scanevents = s.scanevents ∧
          s1.coupons = s.coupons ∧ s1.nextId = s.nextId ∧
          s1.pets.length = s.pets.length ∧
          s1.pets.find? (fun x => x.oid == pid) = some pt1 ∧
          (∀ q ∈ s.pets, (q.oid == pid) = false → q ∈ s1.pets))) := by
  constructor
  · intro h
    have h1 : st ≠ "ACTIVE" := fun e => h (Or.inl e)
    have h2 : st ≠ "LOST" := fun e => h (Or.inr e)
    have hguard : (st != "ACTIVE" && st != "LOST") = true := by
      simp [bne_iff_ne, h1, h2]
    unfold set_status
    rw [hguard]
    rfl
  · intro hv
    have hguard : (st != "ACTIVE" && st != "LOST") = false := by
      rcases hv with rfl | rfl <;> simp
    constructor
    · intro hnone
      have hupd := updateOne_of_find?_none (fun x : PetDoc => x.oid == pid)
        (fun x => { x with status := st, updated_at := some now }) s.pets hnone
      unfold set_status
      rw [hguard]
      simp only [Bool.false_eq_true, if_false]
      rw [hupd]
      rfl
    · intro pt hfind
      have hkeep : ∀ x : PetDoc, ((fun x => x.oid == pid) x) = true →
          ((fun x => x.oid == pid)
            ({ x with status := st, updated_at := some now } : PetDoc)) = true :=
        fun x hx => hx
      have hread := find?_updateOne_self (fun x : PetDoc => x.oid == pid)
        (fun x => { x with status := st, updated_at := some now }) s.pets hkeep
      rw [hfind] at hread
      simp only [Option.map_some'] at hread
      have hcnt := updateOne_snd_eq (fun x : PetDoc => x.oid == pid)
        (fun x => { x with status := st, updated_at := some now }) s.pets
      rw [hfind] at hcnt
      simp only [Option.isSome_some, if_true] at hcnt
      refine ⟨{ pt with status := st, updated_at := some now },
        { s with pets := (updateOne (fun x => x.oid == pid)
            (fun x => { x with status := st, updated_at := some now }) s.pets).1 },
        ?_, rfl, rfl, rfl, rfl, rfl, rfl, rfl, rfl, rfl, rfl, rfl, rfl,
        rfl, rfl, rfl, rfl, rfl,
        updateOne_length _ _ _, hread, ?_⟩
      · unfold set_status
        rw [hguard]
        simp only [Bool.false_eq_true, if_false]
        rw [hcnt]
        rw [if_neg (show ¬(((1 : Nat) == 0) = true) from by decide)]
        rw [hread]
      · intro q hq hqne
        exact updateOne_mem_of_not _ _ _ _ hq hqne

/-- C8 witness (Scenario E): on `demoStore`, whose pet 3 is "LOST", the
invalid status "MISSING" is rejected with 400 and the store — hence the
stored "LOST" status — is unchanged; valid updates hit the other branch. -/
theorem set_status_cases_witness :
    set_status 3 "MISSING" 9 demoStore = (.error (.http 400 "Invalid status"), demoStore) :=
  (set_status_cases 3 "MISSING" 9 demoStore).1 (by decide)


/-! ## Activation: C4 (one-shot) and C10 (frame) -/

theorem find?_key_of_lt (key : α → Nat) (l : List α) (n : Nat)
    (h : ∀ x ∈ l, key x < n) : l.find? (fun x => key x == n) = none := by
  rw [List.find?_eq_none]
  intro x hx
  simp only [beq_iff_eq]
  exact Nat.ne_of_lt (h x hx)

theorem activateWrite_eq (userId : Nat) (now : Nat) (tagOid : Nat) (s : Store)
    (tg : TagDoc)
    (hfind : s.tags.find? (fun t => t.oid == tagOid) = some tg) :
    activateWrite userId now tagOid s =
      (.ok (setActivated userId now tg),
       { s with tags := (updateOne (fun t => t.oid == tagOid)
                          (setActivated userId now) s.tags).1 }) := by
  have hkeep : ∀ x : TagDoc, ((fun t => t.oid == tagOid) x) = true →
      ((fun t => t.oid == tagOid) (setActivated userId now x)) = true :=
    fun x hx => hx
  have hread := find?_updateOne_self (fun t : TagDoc => t.oid == tagOid)
    (setActivated userId now) s.tags hkeep
  rw [hfind] at hread
  simp only [Option.map_some'] at hread
  unfold activateWrite
  dsimp only
  rw [hread]

/-- C10: activating an existing unactivated tag modifies only its
`owner_id`, `activated` and `updated_at`: the tag's code, pet link, model
and creation time survive activation, any previous `owner_id` is
overwritten with the caller's user id, every other tag and every other
collection are untouched, and the updated tag is what the code's lookup
now returns. -/
theorem activate_tag_frame (p : ActivatePayload) (now : Nat) (s : Store)
    (tg : TagDoc) (hwf : s.WF)
    (hfind : s.tags.find? (fun t => t.code == p.code) = some tg)
    (hact : tg.activated = false) :
    ∃ t1 s1, activate_tag p now s = (.ok t1, s1) ∧
      t1.code = tg.code ∧ t1.pet_id = tg.pet_id ∧ t1.model = tg.model ∧
      t1.created_at = tg.created_at ∧
      t1.owner_id = some p.user_id ∧ t1.activated = true ∧
      t1.updated_at = some now ∧
      s1.users = s.users ∧ s1.pets = s.pets ∧ s1.scanevents = s.scanevents ∧
      s1.coupons = s.coupons ∧ s1.nextId = s.nextId ∧
      s1.tags.length = s.tags.length ∧
      s1.tags.find? (fun t => t.code == p.code) = some t1 ∧
      (∀ t ∈ s.tags, (t.oid == tg.oid) = false → t ∈ s1.tags) := by
  obtain ⟨-, -, -, -, -, hnd, -, -⟩ := hwf
  have htg : tg ∈ s.tags := List.mem_of_find?_eq_some hfind
  have hoid : s.tags.find? (fun t => t.oid == tg.oid) = some tg :=
    find?_key_self TagDoc.oid s.tags tg htg hnd
  have key := activateWrite_eq p.user_id now tg.oid s tg hoid
  have hcode_t := List.find?_some hfind
  have huniq : ∀ x ∈ s.tags, ((fun t => t.oid == tg.oid) x) = true → x = tg := by
    intro x hx hq
    exact mem_key_eq TagDoc.oid s.tags tg x hnd htg hx (by simpa using hq)
  have hfind1 := find?_updateOne_of_agree (fun t => t.code == p.code)
    (fun t => t.oid == tg.oid) (setActivated p.user_id now)
    s.tags tg hfind (by simp) huniq hcode_t
  refine ⟨setActivated p.user_id now tg,
    { s with tags := (updateOne (fun t => t.oid == tg.oid)
                       (setActivated p.user_id now) s.tags).1 },
    ?_, rfl, rfl, rfl, rfl, rfl, rfl, rfl, rfl, rfl, rfl, rfl, rfl,
    updateOne_length _ _ _, hfind1, ?_⟩
  · unfold activate_tag
    rw [hfind]
    simp only [hact, Bool.false_eq_true, if_false]
    exact key
  · intro t ht htne
    exact updateOne_mem_of_not _ _ _ _ ht htne

/-- C10 witness: activating the pre-provisioned, unactivated "TAG2" (which
already carries `pet_id = 3`, owner 9 and model smart_case) keeps its code,
pet link, model and created_at, and rebinds `owner_id` to the caller. -/
theorem activate_tag_frame_witness :
    ∃ t1 s1,
      activate_tag { code := "TAG2", user_id := 1, model := "smart_tag" } 9 demoStore
        = (.ok t1, s1) ∧
      t1.code = tagInactive.code ∧ t1.pet_id = tagInactive.pet_id ∧
      t1.model = tagInactive.model ∧ t1.created_at = tagInactive.created_at ∧
      t1.owner_id = some 1 ∧ t1.activated = true ∧ t1.updated_at = some 9 ∧
      s1.users = demoStore.users ∧ s1.pets = demoStore.pets ∧
      s1.scanevents = demoStore.scanevents ∧ s1.coupons = demoStore.coupons ∧
      s1.nextId = demoStore.nextId ∧
      s1.tags.length = demoStore.tags.length ∧
      s1.tags.find? (fun t => t.code == "TAG2") = some t1 ∧
      (∀ t ∈ demoStore.tags, (t.oid == tagInactive.oid) = false → t ∈ s1.tags) :=
  activate_tag_frame { code := "TAG2", user_id := 1, model := "smart_tag" } 9
    demoStore tagInactive (by decide) (by decide) (by decide)

/-- C4: activation is one-shot. For a code whose tag is absent or not yet
activated, the call succeeds (lazily creating the tag when absent) and the
returned tag carries `owner_id = user_id` and `activated = true`; a second
activation of the same code on the resulting store fails with 400
"Tag already activated". And for a code whose tag is already activated, the
call fails with that same 400 error, leaving the store unchanged. -/
theorem activate_tag_one_shot (p p2 : ActivatePayload) (now now2 : Nat) (s : Store)
    (hwf : s.WF) (hcode : p2.code = p.code) :
    ((s.tags.find? (fun t => t.code == p.code)).all (fun t => !t.activated) = true →
      ∃ t1 s1, activate_tag p now s = (.ok t1, s1) ∧
        t1.owner_id = some p.user_id ∧ t1.activated = true ∧
        activate_tag p2 now2 s1 = (.error (.http 400 "Tag already activated"), s1)) ∧
    (∀ t, s.tags.find? (fun tx => tx.code == p.code) = some t → t.activated = true →
      activate_tag p now s = (.error (.http 400 "Tag already activated"), s)) := by
  obtain ⟨-, -, -, -, htb, hnd, -, -⟩ := hwf
  constructor
  · intro hall
    cases hf : s.tags.find? (fun t => t.code == p.code) with
    | some tg =>
      rw [hf] at hall
      have hact : tg.activated = false := by simpa [Option.all] using hall
      have htg : tg ∈ s.tags := List.mem_of_find?_eq_some hf
      have hoid : s.tags.find? (fun t => t.oid == tg.oid) = some tg :=
        find?_key_self TagDoc.oid s.tags tg htg hnd
      have key := activateWrite_eq p.user_id now tg.oid s tg hoid
      have hcode_t := List.find?_some hf
      have huniq : ∀ x ∈ s.tags, ((fun t => t.oid == tg.oid) x) = true → x = tg := by
        intro x hx hq
        exact mem_key_eq TagDoc.oid s.tags tg x hnd htg hx (by simpa using hq)
      have hfind1 := find?_updateOne_of_agree (fun t => t.code == p.code)
        (fun t => t.oid == tg.oid) (setActivated p.user_id now)
        s.tags tg hf (by simp) huniq hcode_t
      refine ⟨setActivated p.user_id now tg,
        { s with tags := (updateOne (fun t => t.oid == tg.oid)
                           (setActivated p.user_id now) s.tags).1 },
        ?_, rfl, rfl, ?_⟩
      · unfold activate_tag
        rw [hf]
        simp only [hact, Bool.false_eq_true, if_false]
        exact key
      · unfold activate_tag
        dsimp only
        rw [hcode, hfind1]
        rfl
    | none =>
      have happ : (s.tags ++ [newTag p now s]).find? (fun t => t.code == p.code)
          = some (newTag p now s) := by
        rw [find?_append_none _ _ _ hf]
        simp [newTag]
      have hpre : ∀ x ∈ s.tags,
          ((fun t : TagDoc => t.oid == (newTag p now s).oid) x) = false := by
        intro x hx
        simp only [newTag, beq_eq_false_iff_ne]
        exact Nat.ne_of_lt (htb x hx)
      have hupd := updateOne_append_last
        (fun t : TagDoc => t.oid == (newTag p now s).oid)
        (setActivated p.user_id now) s.tags (newTag p now s) hpre (by simp)
      have hfind_oid : (s.tags ++ [newTag p now s]).find?
          (fun t => t.oid == (newTag p now s).oid) = some (newTag p now s) := by
        rw [find?_append_none _ _ _ (by
          rw [List.find?_eq_none]
          intro x hx
          simpa [newTag] using Nat.ne_of_lt (htb x hx))]
        simp
      refine ⟨setActivated p.user_id now (newTag p now s),
        { s with tags := s.tags ++ [setActivated p.user_id now (newTag p now s)],
                 nextId := s.nextId + 1 },
        ?_, rfl, rfl, ?_⟩
      · unfold activate_tag
        rw [hf]
        dsimp only
        rw [happ]
        show activateWrite p.user_id now (newTag p now s).oid
            { s with tags := s.tags ++ [newTag p now s], nextId := s.nextId + 1 }
          = _
        rw [activateWrite_eq p.user_id now (newTag p now s).oid
              { s with tags := s.tags ++ [newTag p now s], nextId := s.nextId + 1 }
              (newTag p now s) hfind_oid]
        dsimp only
        rw [hupd]
      · have hftcode : (s.tags ++ [setActivated p.user_id now (newTag p now s)]).find?
            (fun t => t.code == p.code)
            = some (setActivated p.user_id now (newTag p now s)) := by
          rw [find?_append_none _ _ _ hf]
          simp [setActivated, newTag]
        unfold activate_tag
        dsimp only
        rw [hcode, hftcode]
        rfl
  · intro t hft hact
    unfold activate_tag
    rw [hft]
    show (if t.activated = true
          then (Except.error (ApiErr.http 400 "Tag already activated"), s)
          else activateWrite p.user_id now t.oid s) = _
    rw [hact]
    rfl

/-- C4 witness: first activation of the unactivated "TAG2" on `demoStore`
succeeds and sets owner/activated; re-activating "TAG2" on the resulting
store fails with 400. -/
theorem activate_tag_one_shot_witness :
    ∃ t1 s1,
      activate_tag { code := "TAG2", user_id := 1, model := "smart_tag" } 3 demoStore
        = (.ok t1, s1) ∧
      t1.owner_id = some 1 ∧ t1.activated = true ∧
      activate_tag { code := "TAG2", user_id := 2, model := "smart_tag" } 4 s1
        = (.error (.http 400 "Tag already activated"), s1) :=
  (activate_tag_one_shot { code := "TAG2", user_id := 1, model := "smart_tag" }
    { code := "TAG2", user_id := 2, model := "smart_tag" } 3 4 demoStore
    (by decide) rfl).1 (by decide)

/-! ## C5 — linking commits before the confirmation read -/

/-- C5: `link_tag` fails 404 with the store untouched when no tag has the
code. When the tag exists it writes `pet_id` onto the tag with no prior
validation of the pet: in the resulting store the tag already carries the
new `pet_id`, and only the subsequent confirmation read decides the
outcome — an absent pet surfaces the lookup failure (the unhandled
none-subscript) *after* the link write has committed, while an existing
pet yields the success confirmation over the same committed store. -/
theorem link_tag_commit_before_read (p : LinkPayload) (now : Nat) (s : Store)
    (hwf : s.WF) :
    (s.tags.find? (fun t => t.code == p.code) = none →
      link_tag p now s = (.error (.http 404 "Tag not found"), s)) ∧
    (∀ tg, s.tags.find? (fun t => t.code == p.code) = some tg →
      ∃ s1, s1.users = s.users ∧ s1.pets = s.pets ∧ s1.scanevents = s.scanevents ∧
        s1.coupons = s.coupons ∧ s1.nextId = s.nextId ∧
        s1.tags.find? (fun t => t.code == p.code) = some (setPetLink p.pet_id now tg) ∧
        (setPetLink p.pet_id now tg).pet_id = some p.pet_id ∧
        (s.pets.find? (fun x => x.oid == p.pet_id) = none →
          link_tag p now s = (.error .noneTypeError, s1)) ∧
        (∀ pet, s.pets.find? (fun x => x.oid == p.pet_id) = some pet →
          link_tag p now s =
            (.ok { success := true, tag_code := tg.code, pet_oid := pet.oid, pet_name := some pet.name }, s1))) := by
  obtain ⟨-, -, -, -, -, hnd, -, -⟩ := hwf
  constructor
  · intro hf
    unfold link_tag
    rw [hf]
  · intro tg hf
    have htg : tg ∈ s.tags := List.mem_of_find?_eq_some hf
    have hoid : s.tags.find? (fun t => t.oid == tg.oid) = some tg :=
      find?_key_self TagDoc.oid s.tags tg htg hnd
    have hcode_t := List.find?_some hf
    have huniq : ∀ x ∈ s.tags, ((fun t => t.oid == tg.oid) x) = true → x = tg := by
      intro x hx hq
      exact mem_key_eq TagDoc.oid s.tags tg x hnd htg hx (by simpa using hq)
    have hfind1 := find?_updateOne_of_agree (fun t => t.code == p.code)
      (fun t => t.oid == tg.oid) (setPetLink p.pet_id now)
      s.tags tg hf (by simp) huniq hcode_t
    have hcnt := updateOne_snd_eq (fun t : TagDoc => t.oid == tg.oid)
      (setPetLink p.pet_id now) s.tags
    rw [hoid] at hcnt
    simp only [Option.isSome_some, if_true] at hcnt
    refine ⟨{ s with tags := (updateOne (fun t => t.oid == tg.oid)
                               (setPetLink p.pet_id now) s.tags).1 },
      rfl, rfl, rfl, rfl, rfl, hfind1, rfl, ?_, ?_⟩
    · intro hpet
      unfold link_tag
      rw [hf]
      dsimp only
      rw [hcnt]
      rw [if_neg (show ¬(((1 : Nat) == 0) = true) from by decide)]
      rw [hpet]
    · intro pet hpet
      unfold link_tag
      rw [hf]
      dsimp only
      rw [hcnt]
      rw [if_neg (show ¬(((1 : Nat) == 0) = true) from by decide)]
      rw [hpet]

/-- C5 witness: linking "TAG1" to the nonexistent pet 77 on `demoStore`
reports the lookup failure, yet the resulting store's tag already carries
`pet_id = 77`. -/
theorem link_tag_commit_before_read_witness :
    ∃ s1, s1.users = demoStore.users ∧ s1.pets = demoStore.pets ∧
      s1.scanevents = demoStore.scanevents ∧ s1.coupons = demoStore.coupons ∧
      s1.nextId = demoStore.nextId ∧
      s1.tags.find? (fun t => t.code == "TAG1") = some (setPetLink 77 11 tagActive) ∧
      (setPetLink 77 11 tagActive).pet_id = some 77 ∧
      (demoStore.pets.find? (fun x => x.oid == 77) = none →
        link_tag { code := "TAG1", pet_id := 77 } 11 demoStore
          = (.error .noneTypeError, s1)) ∧
      (∀ pet, demoStore.pets.find? (fun x => x.oid == 77) = some pet →
        link_tag { code := "TAG1", pet_id := 77 } 11 demoStore
          = (.ok { success := true, tag_code := tagActive.code, pet_oid := pet.oid, pet_name := some pet.name }, s1)) :=
  (link_tag_commit_before_read { code := "TAG1", pet_id := 77 } 11 demoStore
    (by decide)).2 tagActive (by decide)

/-! ## C9 — auth upsert overwrites profile fields -/

/-- C9: for an existing user matched by email, `auth_google` overwrites the
stored name and phone with the payload values as-is — nulls included, no
field-level merge — and refreshes `updated_at`, while email, tier,
provider, external_id, created_at and the id stay unchanged and no user is
created; a fresh user (tier "basic") is created only when no user carries
the email. -/
theorem auth_google_upsert (p : AuthPayload) (now : Nat) (s : Store)
    (hwf : s.WF) :
    (∀ u0, s.users.find? (fun u => u.email == p.email) = some u0 →
      ∃ u1 s1, auth_google p now s = (.ok u1, s1) ∧
        u1.name = p.name ∧ u1.phone = p.phone ∧ u1.updated_at = some now ∧
        u1.email = u0.email ∧ u1.tier = u0.tier ∧ u1.provider = u0.provider ∧
        u1.external_id = u0.external_id ∧ u1.created_at = u0.created_at ∧
        u1.oid = u0.oid ∧
        s1.users.length = s.users.length ∧ s1.pets = s.pets ∧ s1.tags = s.tags ∧
        s1.scanevents = s.scanevents ∧ s1.coupons = s.coupons ∧
        s1.nextId = s.nextId) ∧
    (s.users.find? (fun u => u.email == p.email) = none →
      ∃ u1, auth_google p now s =
        (.ok u1, { s with users := s.users ++ [u1], nextId := s.nextId + 1 }) ∧
        u1.email = p.email ∧ u1.tier = "basic" ∧ u1.name = p.name ∧
        u1.phone = p.phone ∧ u1.provider = "google" ∧
        u1.external_id = p.external_id ∧ u1.created_at = some now) := by
  obtain ⟨hub, hun, -, -, -, -, -, -⟩ := hwf
  constructor
  · intro u0 hf
    have hu0 : u0 ∈ s.users := List.mem_of_find?_eq_some hf
    have hoid : s.users.find? (fun u => u.oid == u0.oid) = some u0 :=
      find?_key_self UserDoc.oid s.users u0 hu0 hun
    have hkeep : ∀ x : UserDoc, ((fun u => u.oid == u0.oid) x) = true →
        ((fun u => u.oid == u0.oid) (setProfile p now x)) = true :=
      fun x hx => hx
    have hread := find?_updateOne_self (fun u : UserDoc => u.oid == u0.oid)
      (setProfile p now) s.users hkeep
    rw [hoid] at hread
    simp only [Option.map_some'] at hread
    refine ⟨setProfile p now u0,
      { s with users := (updateOne (fun u => u.oid == u0.oid)
                          (setProfile p now) s.users).1 },
      ?_, rfl, rfl, rfl, rfl, rfl, rfl, rfl, rfl, rfl,
      updateOne_length _ _ _, rfl, rfl, rfl, rfl, rfl⟩
    unfold auth_google
    rw [hf]
    dsimp only
    rw [hread]
  · intro hf
    have hfo : s.users.find? (fun v => v.oid == (newUser p now s).oid) = none := by
      rw [List.find?_eq_none]
      intro x hx
      simpa [newUser] using Nat.ne_of_lt (hub x hx)
    have happu : (s.users ++ [newUser p now s]).find?
        (fun v => v.oid == (newUser p now s).oid) = some (newUser p now s) := by
      rw [find?_append_none _ _ _ hfo]
      simp
    refine ⟨newUser p now s, ?_, rfl, rfl, rfl, rfl, rfl, rfl, rfl⟩
    unfold auth_google
    rw [hf]
    dsimp only
    rw [happu]

/-- C9 witness: re-authenticating `uBasic`'s email with a payload that
omits name and phone nulls them out, keeps email/tier/provider/created_at,
and creates no user. -/
theorem auth_google_upsert_witness :
    ∃ u1 s1,
      auth_google { email := "ann@x.com", name := none, phone := none, external_id := none }
          21 demoStore = (.ok u1, s1) ∧
      u1.name = none ∧ u1.phone = none ∧ u1.updated_at = some 21 ∧
      u1.email = uBasic.email ∧ u1.tier = uBasic.tier ∧ u1.provider = uBasic.provider ∧
      u1.external_id = uBasic.external_id ∧ u1.created_at = uBasic.created_at ∧
      u1.oid = uBasic.oid ∧
      s1.users.length = demoStore.users.length ∧ s1.pets = demoStore.pets ∧
      s1.tags = demoStore.tags ∧ s1.scanevents = demoStore.scanevents ∧
      s1.coupons = demoStore.coupons ∧ s1.nextId = demoStore.nextId :=
  (auth_google_upsert
    { email := "ann@x.com", name := none, phone := none, external_id := none }
    21 demoStore (by decide)).1 uBasic (by decide)
